import Mathlib

/-!
Shallow embedding of `src/app.py` (a Flask + DHT11 environmental monitor).

Conventions of the embedding:
* Python floats (temperatures, humidities) are modelled as rationals `ℚ`;
  `round(x, 1)` is modelled as decimal rounding to one fractional digit
  with ties to even, matching Python's round-half-to-even convention.
* `datetime` values are modelled as `Int` seconds since the Unix epoch;
  civil (year/month/day) fields are recovered with the standard
  days-from-civil / civil-from-days algorithms, and `timedelta`
  arithmetic is plain integer arithmetic on seconds.
* The module-level mutable globals of `app.py` are gathered in `AppState`;
  each Python function becomes a function from the pieces of state it
  reads to the pieces it writes.
* The persisted JSON file is modelled by `RawFile`: the file can be
  missing, unparseable, or a well-formed object whose `data` key may be
  absent and whose `last_save` key may be null, an unparseable string, or
  a valid ISO timestamp (the ISO string round-trip is treated as the
  identity on timestamps).
-/

/-- Constant `HISTORICAL_INTERVAL = 300` (app.py line 39): 5 minutes in seconds. -/
def HISTORICAL_INTERVAL : Int := 300

set_option maxRecDepth 10000

/-- Constant `MAX_HISTORICAL_POINTS = 288` (app.py line 40). -/
def MAX_HISTORICAL_POINTS : Nat := 288

/-- The `historical_data` dict: three parallel lists (app.py line 37). -/
structure HistData where
  labels : List String
  temp : List ℚ
  hum : List ℚ
deriving DecidableEq, Repr

/-- The initial / reset value `{"labels": [], "temp": [], "hum": []}`. -/
def emptyHist : HistData := ⟨[], [], []⟩

/-- The `sensor_data` dict (app.py line 24). -/
structure SensorData where
  temperature : Option ℚ
  humidity : Option ℚ
  buzzer : String
  time : Option String
  error : Bool
deriving DecidableEq, Repr

/-- Initial `sensor_data` value (app.py line 24). -/
def initSensorData : SensorData := ⟨none, none, "OFF", none, false⟩

/-! ## Calendar arithmetic (embedding of Python `datetime`) -/

/-- Days since 1970-01-01 of the civil date `y-m-d`
(Howard Hinnant's `days_from_civil` algorithm). -/
def daysFromCivil (y : Int) (m d : Nat) : Int :=
  let y' := if m ≤ 2 then y - 1 else y
  let era := y'.fdiv 400
  let yoe := (y' - era * 400).toNat
  let mp := if m > 2 then m - 3 else m + 9
  let doy := (153 * mp + 2) / 5 + d - 1
  let doe := yoe * 365 + yoe / 4 - yoe / 100 + doy
  era * 146097 + (doe : Int) - 719468

/-- Civil date `(year, month, day)` of a day count since 1970-01-01
(Howard Hinnant's `civil_from_days` algorithm). -/
def civilFromDays (z : Int) : Int × Nat × Nat :=
  let z' := z + 719468
  let era := z'.fdiv 146097
  let doe := (z' - era * 146097).toNat
  let yoe := (doe - doe / 1460 + doe / 36524 - doe / 146096) / 365
  let y := (yoe : Int) + era * 400
  let doy := doe - (365 * yoe + yoe / 4 - yoe / 100)
  let mp := (5 * doy + 2) / 153
  let d := doy - (153 * mp + 2) / 5 + 1
  let m := if mp < 10 then mp + 3 else mp - 9
  (if m ≤ 2 then y + 1 else y, m, d)

/-- A `datetime` built from civil fields, as seconds since the epoch. -/
def mkTs (y : Int) (m d h mi s : Nat) : Int :=
  daysFromCivil y m d * 86400 + ((h * 3600 + mi * 60 + s : Nat) : Int)

/-- Seconds elapsed since local midnight of a timestamp. -/
def secOfDay (t : Int) : Nat := (t - (t.fdiv 86400) * 86400).toNat

/-- The year field of a timestamp (Python `now.year`). -/
def yearOf (t : Int) : Int := (civilFromDays (t.fdiv 86400)).1

/-- Field `%b`: abbreviated month name, as produced by C/Python `strftime`. -/
def monthAbbrev : Nat → String
  | 1 => "Jan" | 2 => "Feb" | 3 => "Mar" | 4 => "Apr"
  | 5 => "May" | 6 => "Jun" | 7 => "Jul" | 8 => "Aug"
  | 9 => "Sep" | 10 => "Oct" | 11 => "Nov" | 12 => "Dec"
  | _ => ""

/-- Two-digit zero padding, as in `%d`, `%I`, `%M`. -/
def pad2 (n : Nat) : String := if n < 10 then "0" ++ toString n else toString n

/-- Embedding of `middle_time.strftime("%b %d %I:%M %p")` (app.py line 111). -/
def strftimeLabel (t : Int) : String :=
  let c := civilFromDays (t.fdiv 86400)
  let sod := secOfDay t
  let hour := sod / 3600
  let minute := (sod % 3600) / 60
  let h12 := if hour % 12 = 0 then 12 else hour % 12
  let ap := if hour < 12 then "AM" else "PM"
  monthAbbrev c.2.1 ++ " " ++ pad2 c.2.2 ++ " " ++ pad2 h12 ++ ":" ++ pad2 minute ++ " " ++ ap

/-! ## Rounding (embedding of Python `round(x, 1)`) -/

/-- Round a rational to the nearest integer, ties to even
(Python's rounding convention). -/
def roundHalfEven (q : ℚ) : ℤ :=
  let f := q.floor
  let r := q - (f : ℚ)
  if r < 1/2 then f
  else if 1/2 < r then f + 1
  else if f % 2 = 0 then f else f + 1

/-- Python `round(x, 1)`: round to one decimal place. -/
def round1 (q : ℚ) : ℚ := (roundHalfEven (q * 10) : ℚ) / 10

/-! ## Retention store: append with capacity eviction -/

/-- Lines 113–122 of `save_averaged_data`: append the averaged point to the
three parallel lists and, if the labels list now exceeds
`MAX_HISTORICAL_POINTS`, keep only the last `MAX_HISTORICAL_POINTS` entries
of each list (`xs[-MAX_HISTORICAL_POINTS:]`, modelled as
`List.drop (length - MAX_HISTORICAL_POINTS)`, which like the Python slice
drops nothing when the list is short). -/
def appendPoint (hd : HistData) (label : String) (t h : ℚ) : HistData :=
  let labels := hd.labels ++ [label]
  let temp := hd.temp ++ [t]
  let hum := hd.hum ++ [h]
  if labels.length > MAX_HISTORICAL_POINTS then
    ⟨labels.drop (labels.length - MAX_HISTORICAL_POINTS),
     temp.drop (temp.length - MAX_HISTORICAL_POINTS),
     hum.drop (hum.length - MAX_HISTORICAL_POINTS)⟩
  else ⟨labels, temp, hum⟩

/-! ## Persistence (embedding of the JSON history file) -/

/-- The `last_save` key of the persisted JSON object: JSON null, an
unparseable string (on which `datetime.fromisoformat` raises), or a
string parsing to a timestamp. -/
inductive LastSaveRaw where
  | rnull : LastSaveRaw
  | bad : LastSaveRaw
  | good : Int → LastSaveRaw
deriving DecidableEq, Repr

/-- The on-disk history file as seen by `load_historical_data`:
missing, unparseable JSON, or a well-formed object whose `data` key may be
absent (`data.get("data", default)`) and whose `last_save` key is a
`LastSaveRaw`. -/
inductive RawFile where
  | missing : RawFile
  | malformed : RawFile
  | wellformed : Option HistData → LastSaveRaw → RawFile
deriving DecidableEq, Repr

/-- Function `save_historical_data` (app.py lines 66–77): the JSON object written is
`{"data": historical_data, "last_save": last_historical_save.isoformat()
or null}`; the function's value is the file content produced. -/
def save_historical_data (hd : HistData) (lastSave : Option Int) : RawFile :=
  RawFile.wellformed (some hd)
    (match lastSave with
     | none => LastSaveRaw.rnull
     | some t => LastSaveRaw.good t)

/-- Function `load_historical_data` (app.py lines 48–64): returns the resulting
`(historical_data, last_historical_save)` globals. A missing file leaves
the globals at their initial empty values; malformed JSON, or a `last_save`
string on which `fromisoformat` raises, lands in the `except` handler,
which resets `historical_data` to the empty dict (and leaves
`last_historical_save` at its startup value `None`). No error propagates
to the caller: the function is total. -/
def load_historical_data : RawFile → HistData × Option Int
  | RawFile.missing => (emptyHist, none)
  | RawFile.malformed => (emptyHist, none)
  | RawFile.wellformed d ls =>
    match ls with
    | LastSaveRaw.bad => (emptyHist, none)
    | LastSaveRaw.rnull => (d.getD emptyHist, none)
    | LastSaveRaw.good t => (d.getD emptyHist, some t)

/-! ## The module-level mutable state -/

/-- All module-level mutable globals of `app.py` (lines 24, 37–45),
plus the history file itself (`none` = the file does not exist). -/
structure AppState where
  sensor_data : SensorData
  temp_readings_buffer : List ℚ
  humidity_readings_buffer : List ℚ
  buffer_start_time : Option Int
  historical_data : HistData
  last_historical_save : Option Int
  hist_file : Option RawFile
deriving DecidableEq, Repr

/-- The state right after module initialization (before
`load_historical_data` runs): empty buffers, empty history, no file. -/
def initAppState : AppState :=
  ⟨initSensorData, [], [], none, emptyHist, none, none⟩

/-! ## Averaging buffer flush -/

/-- Function `save_averaged_data` (app.py lines 98–136): if either buffer is empty
return `False`; otherwise average the buffers, label the point with the
window midpoint (`buffer_start_time + HISTORICAL_INTERVAL/2`) formatted as
`"%b %d %I:%M %p"`, append it to `historical_data` with capacity eviction
(via `appendPoint`), set `last_historical_save = now`, write the file, and
reset the buffers and `buffer_start_time`.

`buffer_start_time` is read with a default of `0`; in the Python code the
buffers are non-empty only when `buffer_start_time` is set (in
`add_to_buffer` the start time is assigned before the first append), so
the default is never consulted on reachable states. -/
def save_averaged_data (st : AppState) (now : Int) : AppState × Bool :=
  if st.temp_readings_buffer = [] ∨ st.humidity_readings_buffer = [] then
    (st, false)
  else
    let avg_temp := st.temp_readings_buffer.sum / (st.temp_readings_buffer.length : ℚ)
    let avg_humidity := st.humidity_readings_buffer.sum / (st.humidity_readings_buffer.length : ℚ)
    let middle_time := st.buffer_start_time.getD 0 + HISTORICAL_INTERVAL / 2
    let timestamp := strftimeLabel middle_time
    let hd := appendPoint st.historical_data timestamp (round1 avg_temp) (round1 avg_humidity)
    ({ st with
        historical_data := hd
        last_historical_save := some now
        hist_file := some (save_historical_data hd (some now))
        temp_readings_buffer := []
        humidity_readings_buffer := []
        buffer_start_time := none }, true)

/-- Function `add_to_buffer` (app.py lines 79–96): set `buffer_start_time` to `now`
if unset, append the reading to both buffers, and flush via
`save_averaged_data` once `now - buffer_start_time ≥ HISTORICAL_INTERVAL`. -/
def add_to_buffer (temperature humidity : ℚ) (now : Int) (st : AppState) : AppState :=
  let start := st.buffer_start_time.getD now
  let st' := { st with
      buffer_start_time := some start
      temp_readings_buffer := st.temp_readings_buffer ++ [temperature]
      humidity_readings_buffer := st.humidity_readings_buffer ++ [humidity] }
  if now - start ≥ HISTORICAL_INTERVAL then (save_averaged_data st' now).1 else st'

/-! ## Age-based pruning -/

/-- Digit parsing: `s.toNat?` restricted to at most two digits, as matched by the
`strptime` field patterns `%d`, `%I`, `%H`, `%M`. -/
def parseNum2 (s : String) : Option Nat :=
  if s.length ≤ 2 then s.toNat? else none

/-- Inverse of `%b` month matching, restricted to the canonical
capitalization that this program's own `strftime` emits. -/
def monthFromAbbrev (s : String) : Option Nat :=
  if s = "Jan" then some 1 else if s = "Feb" then some 2
  else if s = "Mar" then some 3 else if s = "Apr" then some 4
  else if s = "May" then some 5 else if s = "Jun" then some 6
  else if s = "Jul" then some 7 else if s = "Aug" then some 8
  else if s = "Sep" then some 9 else if s = "Oct" then some 10
  else if s = "Nov" then some 11 else if s = "Dec" then some 12
  else none

/-- Leap-year test of the proleptic Gregorian calendar. -/
def isLeap (y : Int) : Bool :=
  y.emod 4 = 0 ∧ (y.emod 100 ≠ 0 ∨ y.emod 400 = 0)

/-- Number of days in month `m` of year `y` (Python `datetime` validates
the day-of-month against this bound when `strptime` builds the date). -/
def daysInMonth (y : Int) (m : Nat) : Nat :=
  if m = 2 then (if isLeap y then 29 else 28)
  else if m = 4 ∨ m = 6 ∨ m = 9 ∨ m = 11 then 30
  else 31

/-- Parse an `"HH:MM"` field pair. -/
def parseTimeHM (s : String) : Option (Nat × Nat) :=
  match s.splitOn ":" with
  | [hh, mm] => do
    let h ← parseNum2 hh
    let mi ← parseNum2 mm
    pure (h, mi)
  | _ => none

/-- Embedding of `datetime.strptime(f"{year} {label}", "%Y %b %d %I:%M %p")`
(app.py line 153), as a total function returning `none` where `strptime`
or the `datetime` constructor would raise `ValueError`. -/
def parseLabel12 (year : Int) (label : String) : Option Int :=
  match label.splitOn " " with
  | [mon, dd, hm, ap] => do
    let m ← monthFromAbbrev mon
    let d ← parseNum2 dd
    guard (1 ≤ d ∧ d ≤ daysInMonth year m)
    let tm ← parseTimeHM hm
    guard (1 ≤ tm.1 ∧ tm.1 ≤ 12 ∧ tm.2 ≤ 59)
    let h24 ←
      if ap = "AM" then some (if tm.1 = 12 then 0 else tm.1)
      else if ap = "PM" then some (if tm.1 = 12 then 12 else tm.1 + 12)
      else none
    pure (mkTs year m d h24 tm.2 0)
  | _ => none

/-- Embedding of `datetime.strptime(f"{year} {label}", "%Y %b %d %H:%M")`
(app.py line 156), the 24-hour fallback format. -/
def parseLabel24 (year : Int) (label : String) : Option Int :=
  match label.splitOn " " with
  | [mon, dd, hm] => do
    let m ← monthFromAbbrev mon
    let d ← parseNum2 dd
    guard (1 ≤ d ∧ d ≤ daysInMonth year m)
    let tm ← parseTimeHM hm
    guard (tm.1 ≤ 23 ∧ tm.2 ≤ 59)
    pure (mkTs year m d tm.1 tm.2 0)
  | _ => none

/-- Lines 152–156 of `clean_old_data`: try the 12-hour format, fall back
to the 24-hour format on `ValueError`. -/
def parseLabel (year : Int) (label : String) : Option Int :=
  (parseLabel12 year label).orElse (fun _ => parseLabel24 year label)

/-- The `for i, label in enumerate(...)` loop of `clean_old_data`
(app.py lines 147–162): return the index of the first label whose parsed
time is `≥ cutoff` (`break`), skipping labels that fail to parse
(`except: continue`); `none` if the loop never breaks. -/
def findKeepFrom (year cutoff : Int) : List String → Nat → Option Nat
  | [], _ => none
  | l :: ls, i =>
    match parseLabel year l with
    | some t => if t ≥ cutoff then some i else findKeepFrom year cutoff ls (i + 1)
    | none => findKeepFrom year cutoff ls (i + 1)

/-- Function `clean_old_data` (app.py lines 138–169), with the wall clock `now`
passed explicitly: computes `cutoff = now - 24h`, finds the first index to
keep (`keep_from`, initialized to `0`), and only when `keep_from > 0`
slices all three lists from it and persists. The returned flag records
whether `save_historical_data` was invoked. -/
def clean_old_data (now : Int) (hd : HistData) : HistData × Bool :=
  if hd.labels = [] then (hd, false)
  else
    let cutoff := now - 24 * 3600
    let keep_from := (findKeepFrom (yearOf now) cutoff hd.labels 0).getD 0
    if keep_from > 0 then
      (⟨hd.labels.drop keep_from, hd.temp.drop keep_from, hd.hum.drop keep_from⟩, true)
    else (hd, false)

/-! ## Sensor loop body and live state -/

/-- The failure branches of the sensor loop (app.py lines 229–238): only
`sensor_data["error"] = True` is executed. -/
def markError (sd : SensorData) : SensorData := { sd with error := true }

/-- One iteration of the body of `sensor_loop` (app.py lines 203–238).
`reading = none` covers both a driver exception and `None` values; in that
case only the error flag changes and no buzzer command is issued. On a
successful reading the `sensor_data` dict is updated (lines 209–214,
leaving `buzzer` untouched there), the reading is buffered (line 219), and
the threshold `temperature >= 38` drives the buzzer (lines 221–227). The
second component is the command written to the buzzer GPIO, if any. -/
def sensorStep (st : AppState) (reading : Option (ℚ × ℚ)) (now : Int)
    (nowStr : String) : AppState × Option Bool :=
  match reading with
  | none => ({ st with sensor_data := markError st.sensor_data }, none)
  | some (t, h) =>
    let sd := { st.sensor_data with
        temperature := some t, humidity := some h, time := some nowStr, error := false }
    let st' := add_to_buffer t h now { st with sensor_data := sd }
    if t ≥ 38 then
      ({ st' with sensor_data := { st'.sensor_data with buzzer := "ON" } }, some true)
    else
      ({ st' with sensor_data := { st'.sensor_data with buzzer := "OFF" } }, some false)

/-! ## The clear endpoint -/

/-- Function `clear_history` (app.py lines 275–293): resets `historical_data`,
`last_historical_save`, both averaging buffers and `buffer_start_time`,
and deletes the history file. `sensor_data` is not touched. -/
def clear_history (st : AppState) : AppState :=
  { st with
      historical_data := emptyHist
      last_historical_save := none
      temp_readings_buffer := []
      humidity_readings_buffer := []
      buffer_start_time := none
      hist_file := none }

/-! ## Shared helper lemmas -/

/-- The truncation amount `len + 1 - MAX` never exceeds the original
length, so the drop always ends inside the pre-append list. -/
theorem append_drop_le (n : Nat) : n + 1 - MAX_HISTORICAL_POINTS ≤ n := by
  unfold MAX_HISTORICAL_POINTS; omega

/-- Lemma: `appendPoint` always leaves the new point as the last entry of each of
the three sequences. -/
theorem appendPoint_getLast (hd : HistData) (label : String) (t h : ℚ) :
    (appendPoint hd label t h).labels.getLast? = some label ∧
    (appendPoint hd label t h).temp.getLast? = some t ∧
    (appendPoint hd label t h).hum.getLast? = some h := by
  simp only [appendPoint]
  split
  · refine ⟨?_, ?_, ?_⟩ <;>
      simp only [List.length_append, List.length_cons, List.length_nil, Nat.zero_add] <;>
      rw [List.drop_append_of_le_length (append_drop_le _)] <;>
      exact List.getLast?_concat _
  · exact ⟨List.getLast?_concat _, List.getLast?_concat _, List.getLast?_concat _⟩

/-- Frame lemma: `save_averaged_data` never touches `sensor_data`. -/
theorem save_averaged_data_sensor (st : AppState) (now : Int) :
    ((save_averaged_data st now).1).sensor_data = st.sensor_data := by
  simp only [save_averaged_data]
  split <;> rfl

/-- Frame lemma: `add_to_buffer` never touches `sensor_data`. -/
theorem add_to_buffer_sensor (t h : ℚ) (now : Int) (st : AppState) :
    (add_to_buffer t h now st).sensor_data = st.sensor_data := by
  simp only [add_to_buffer]
  split
  · exact save_averaged_data_sensor _ _
  · rfl

/-! ## Claim theorems -/

/-- C1: the function `appendPoint` (the append-with-eviction step of
`save_averaged_data`) preserves the length invariant
`len labels = len temp = len hum ≤ MAX_HISTORICAL_POINTS`; appending a
289th point to a store of length 288 removes exactly the oldest entry of
each sequence and keeps the remaining entries in order. -/
theorem appendPoint_bounded (hd : HistData) (label : String) (t h : ℚ)
    (h1 : hd.labels.length = hd.temp.length)
    (h2 : hd.temp.length = hd.hum.length)
    (h3 : hd.labels.length ≤ MAX_HISTORICAL_POINTS) :
    ((appendPoint hd label t h).labels.length = (appendPoint hd label t h).temp.length ∧
     (appendPoint hd label t h).temp.length = (appendPoint hd label t h).hum.length ∧
     (appendPoint hd label t h).labels.length ≤ MAX_HISTORICAL_POINTS) ∧
    (hd.labels.length = MAX_HISTORICAL_POINTS →
     (appendPoint hd label t h).labels = hd.labels.tail ++ [label] ∧
     (appendPoint hd label t h).temp = hd.temp.tail ++ [t] ∧
     (appendPoint hd label t h).hum = hd.hum.tail ++ [h]) := by
  simp only [appendPoint]
  split
  case isTrue hgt =>
    simp only [List.length_append, List.length_cons, List.length_nil, Nat.zero_add,
      List.length_drop, MAX_HISTORICAL_POINTS] at h3 hgt ⊢
    constructor
    · refine ⟨?_, ?_, ?_⟩ <;> omega
    · intro hfull
      have hd1 : hd.labels.length + 1 - 288 = 1 := by omega
      have hd2 : hd.temp.length + 1 - 288 = 1 := by omega
      have hd3 : hd.hum.length + 1 - 288 = 1 := by omega
      rw [hd1, hd2, hd3]
      have hl1 : (1 : Nat) ≤ hd.labels.length := by omega
      have hl2 : (1 : Nat) ≤ hd.temp.length := by omega
      have hl3 : (1 : Nat) ≤ hd.hum.length := by omega
      refine ⟨?_, ?_, ?_⟩ <;>
        rw [List.drop_append_of_le_length (by omega), List.drop_one]
  case isFalse hle =>
    simp only [List.length_append, List.length_cons, List.length_nil, Nat.zero_add,
      MAX_HISTORICAL_POINTS] at h3 hle ⊢
    constructor
    · refine ⟨?_, ?_, ?_⟩ <;> omega
    · intro hfull
      exfalso
      omega

/-- A concrete full store of 288 points, for the capacity witnesses. -/
def fullStore : HistData :=
  ⟨List.replicate MAX_HISTORICAL_POINTS "a",
   List.replicate MAX_HISTORICAL_POINTS 0,
   List.replicate MAX_HISTORICAL_POINTS 0⟩

/-- Witness for C1 at a concrete store of 288 points. -/
theorem appendPoint_bounded_witness :
    (fullStore.labels.length = fullStore.temp.length ∧
     fullStore.temp.length = fullStore.hum.length ∧
     fullStore.labels.length ≤ MAX_HISTORICAL_POINTS) ∧
    (((appendPoint fullStore "b" 1 2).labels.length = (appendPoint fullStore "b" 1 2).temp.length ∧
      (appendPoint fullStore "b" 1 2).temp.length = (appendPoint fullStore "b" 1 2).hum.length ∧
      (appendPoint fullStore "b" 1 2).labels.length ≤ MAX_HISTORICAL_POINTS) ∧
     (fullStore.labels.length = MAX_HISTORICAL_POINTS →
      (appendPoint fullStore "b" 1 2).labels = fullStore.labels.tail ++ ["b"] ∧
      (appendPoint fullStore "b" 1 2).temp = fullStore.temp.tail ++ [1] ∧
      (appendPoint fullStore "b" 1 2).hum = fullStore.hum.tail ++ [2])) :=
  ⟨⟨by simp [fullStore], by simp [fullStore], by simp [fullStore]⟩,
   appendPoint_bounded fullStore "b" 1 2 (by simp [fullStore]) (by simp [fullStore])
     (by simp [fullStore])⟩

/-- C4: persisting the store and loading the resulting file restores
exactly the same `historical_data` lists and `last_historical_save`
timestamp. -/
theorem persist_load_roundtrip (hd : HistData) (lastSave : Option Int) :
    load_historical_data (save_historical_data hd lastSave) = (hd, lastSave) := by
  cases lastSave <;> rfl

/-- C8: a missing history file, a file with unparseable JSON, and a file
whose `last_save` string `fromisoformat` cannot parse all make
`load_historical_data` come back with an empty store and no last-save
timestamp; the function is total, so no error reaches the caller. -/
theorem load_failure_degrades_to_empty :
    load_historical_data RawFile.missing = (emptyHist, none) ∧
    load_historical_data RawFile.malformed = (emptyHist, none) ∧
    ∀ d : Option HistData,
      load_historical_data (RawFile.wellformed d LastSaveRaw.bad) = (emptyHist, none) :=
  ⟨rfl, rfl, fun _ => rfl⟩

/-- C9: the endpoint `clear_history` empties the three history sequences, resets the
last-save timestamp, deletes the persisted file, and also resets the
averaging buffers and the open window start. -/
theorem clear_history_resets_buffers (st : AppState) :
    (clear_history st).historical_data = emptyHist ∧
    (clear_history st).last_historical_save = none ∧
    (clear_history st).hist_file = none ∧
    (clear_history st).temp_readings_buffer = [] ∧
    (clear_history st).humidity_readings_buffer = [] ∧
    (clear_history st).buffer_start_time = none :=
  ⟨rfl, rfl, rfl, rfl, rfl, rfl⟩

/-- C10: loading a persisted file with more than `MAX_HISTORICAL_POINTS`
entries yields the over-capacity store unchanged (no bound enforcement on
load); the next `appendPoint` truncates all three sequences to exactly the
last `MAX_HISTORICAL_POINTS` entries. -/
theorem load_over_capacity_append_truncates (hd : HistData) (lastSave : Option Int)
    (h1 : hd.labels.length = hd.temp.length)
    (h2 : hd.temp.length = hd.hum.length)
    (hover : hd.labels.length > MAX_HISTORICAL_POINTS) (label : String) (t h : ℚ) :
    (load_historical_data (save_historical_data hd lastSave)).1 = hd ∧
    (load_historical_data (save_historical_data hd lastSave)).1.labels.length
      > MAX_HISTORICAL_POINTS ∧
    (appendPoint hd label t h).labels
      = (hd.labels ++ [label]).drop (hd.labels.length + 1 - MAX_HISTORICAL_POINTS) ∧
    (appendPoint hd label t h).temp
      = (hd.temp ++ [t]).drop (hd.temp.length + 1 - MAX_HISTORICAL_POINTS) ∧
    (appendPoint hd label t h).hum
      = (hd.hum ++ [h]).drop (hd.hum.length + 1 - MAX_HISTORICAL_POINTS) ∧
    (appendPoint hd label t h).labels.length = MAX_HISTORICAL_POINTS ∧
    (appendPoint hd label t h).temp.length = MAX_HISTORICAL_POINTS ∧
    (appendPoint hd label t h).hum.length = MAX_HISTORICAL_POINTS := by
  have h288 : MAX_HISTORICAL_POINTS = 288 := rfl
  rw [h288] at hover
  have hload : load_historical_data (save_historical_data hd lastSave) = (hd, lastSave) := by
    cases lastSave <;> rfl
  have happ : appendPoint hd label t h =
      ⟨(hd.labels ++ [label]).drop ((hd.labels ++ [label]).length - MAX_HISTORICAL_POINTS),
       (hd.temp ++ [t]).drop ((hd.temp ++ [t]).length - MAX_HISTORICAL_POINTS),
       (hd.hum ++ [h]).drop ((hd.hum ++ [h]).length - MAX_HISTORICAL_POINTS)⟩ := by
    simp only [appendPoint]
    rw [if_pos]
    simp only [List.length_append, List.length_cons, List.length_nil, Nat.zero_add,
      MAX_HISTORICAL_POINTS]
    omega
  refine ⟨by rw [hload], by rw [hload]; rw [h288]; exact hover, ?_, ?_, ?_, ?_, ?_, ?_⟩ <;>
    rw [happ] <;>
    simp only [List.length_append, List.length_cons, List.length_nil, Nat.zero_add,
      List.length_drop, h288] <;>
    omega

/-- A concrete over-capacity store of 289 points, for the C10 witness. -/
def overStore : HistData :=
  ⟨List.replicate 289 "a", List.replicate 289 0, List.replicate 289 0⟩

/-- Witness for C10 at a concrete over-capacity store of 289 points. -/
theorem load_over_capacity_append_truncates_witness :
    (overStore.labels.length = overStore.temp.length ∧
     overStore.temp.length = overStore.hum.length ∧
     overStore.labels.length > MAX_HISTORICAL_POINTS) ∧
    ((load_historical_data (save_historical_data overStore none)).1 = overStore ∧
     (load_historical_data (save_historical_data overStore none)).1.labels.length
       > MAX_HISTORICAL_POINTS ∧
     (appendPoint overStore "b" 1 2).labels
       = (overStore.labels ++ ["b"]).drop (overStore.labels.length + 1 - MAX_HISTORICAL_POINTS) ∧
     (appendPoint overStore "b" 1 2).temp
       = (overStore.temp ++ [1]).drop (overStore.temp.length + 1 - MAX_HISTORICAL_POINTS) ∧
     (appendPoint overStore "b" 1 2).hum
       = (overStore.hum ++ [2]).drop (overStore.hum.length + 1 - MAX_HISTORICAL_POINTS) ∧
     (appendPoint overStore "b" 1 2).labels.length = MAX_HISTORICAL_POINTS ∧
     (appendPoint overStore "b" 1 2).temp.length = MAX_HISTORICAL_POINTS ∧
     (appendPoint overStore "b" 1 2).hum.length = MAX_HISTORICAL_POINTS) := by
  refine ⟨⟨by simp [overStore], by simp [overStore], by simp [overStore, MAX_HISTORICAL_POINTS]⟩, ?_⟩
  exact load_over_capacity_append_truncates overStore none (by simp [overStore])
    (by simp [overStore]) (by simp [overStore, MAX_HISTORICAL_POINTS]) "b" 1 2

/-- A label is stale for a cutoff when it either fails to parse or parses
to a time strictly before the cutoff (so the pruning loop never breaks on
it). -/
def labelStale (year cutoff : Int) (label : String) : Bool :=
  match parseLabel year label with
  | some t => decide (t < cutoff)
  | none => true

/-- If every label in the list is stale, the pruning loop runs to the end
without ever setting `keep_from`. -/
theorem findKeepFrom_none (year cutoff : Int) :
    ∀ (ls : List String) (i : Nat), ls.all (labelStale year cutoff) = true →
      findKeepFrom year cutoff ls i = none
  | [], _, _ => rfl
  | l :: ls, i, hall => by
    simp only [List.all_cons, Bool.and_eq_true] at hall
    obtain ⟨h1, h2⟩ := hall
    unfold findKeepFrom
    cases hp : parseLabel year l with
    | none => exact findKeepFrom_none year cutoff ls (i + 1) h2
    | some tm =>
      simp only [labelStale, hp, decide_eq_true_eq] at h1
      show (if tm ≥ cutoff then some i else findKeepFrom year cutoff ls (i + 1)) = none
      rw [if_neg (by omega)]
      exact findKeepFrom_none year cutoff ls (i + 1) h2

/-- C5: if no label of the store parses to a timestamp at or after the
24-hour cutoff (in particular when every label is older than the cutoff),
`clean_old_data` leaves the store unchanged and does not trigger
persistence. -/
theorem clean_old_data_stale_noop (now : Int) (hd : HistData)
    (hall : hd.labels.all (labelStale (yearOf now) (now - 24 * 3600)) = true) :
    clean_old_data now hd = (hd, false) := by
  simp only [clean_old_data]
  split
  · rfl
  · rw [findKeepFrom_none (yearOf now) (now - 24 * 3600) hd.labels 0 hall]
    rfl

/-- A concrete store whose single label is far older than the cutoff. -/
def staleStore : HistData := ⟨["Jan 05 03:17 PM"], [26], [51]⟩

/-- A concrete prune instant (2024-06-15 12:00:00), months after the
label of `staleStore`. -/
def staleNow : Int := mkTs 2024 6 15 12 0 0

/-- Witness for C5: pruning the stale store at `staleNow` is a no-op. -/
theorem clean_old_data_stale_noop_witness :
    staleStore.labels.all (labelStale (yearOf staleNow) (staleNow - 24 * 3600)) = true ∧
    clean_old_data staleNow staleStore = (staleStore, false) :=
  ⟨by with_unfolding_all decide,
   clean_old_data_stale_noop staleNow staleStore (by with_unfolding_all decide)⟩

/-- Timestamp 2024-01-05 15:15:00, the window start of the C2 scenario. -/
def flushWindowStart : Int := mkTs 2024 1 5 15 15 0

/-- Buffer state after the readings (25.0,50), (26.0,52), (27.0,51) were
accumulated in the window starting at `flushWindowStart`. -/
def flushScenarioState : AppState :=
  { initAppState with
      temp_readings_buffer := [25, 26, 27]
      humidity_readings_buffer := [50, 52, 51]
      buffer_start_time := some flushWindowStart }

/-- C2: flushing the buffered readings (25.0,50), (26.0,52), (27.0,51) of
the 300 s window starting 2024-01-05T15:15:00 produces exactly the point
`{label: "Jan 05 03:17 PM", temperature: 26.0, humidity: 51.0}`, the label
being the window start plus 150 s in month/day/12-hour format. -/
theorem flush_scenario_jan05 :
    strftimeLabel (flushWindowStart + 150) = "Jan 05 03:17 PM" ∧
    (save_averaged_data flushScenarioState
        (flushWindowStart + HISTORICAL_INTERVAL)).1.historical_data
      = ⟨["Jan 05 03:17 PM"], [26], [51]⟩ ∧
    (save_averaged_data flushScenarioState (flushWindowStart + HISTORICAL_INTERVAL)).2
      = true := by
  refine ⟨?_, ?_, ?_⟩ <;> with_unfolding_all decide

/-- C3: for non-empty buffers, `save_averaged_data` appends exactly the
arithmetic mean of the temperatures and of the humidities, each rounded to
one decimal place, and the appended point is invariant under permuting
the read order of either buffer. -/
theorem flush_mean_perm_invariant (st1 st2 : AppState) (now1 now2 : Int)
    (ht : st1.temp_readings_buffer ≠ [])
    (hh : st1.humidity_readings_buffer ≠ [])
    (hpt : st1.temp_readings_buffer.Perm st2.temp_readings_buffer)
    (hph : st1.humidity_readings_buffer.Perm st2.humidity_readings_buffer)
    (hstart : st1.buffer_start_time = st2.buffer_start_time)
    (hhist : st1.historical_data = st2.historical_data) :
    (save_averaged_data st1 now1).1.historical_data.temp.getLast?
        = some (round1 (st1.temp_readings_buffer.sum
            / (st1.temp_readings_buffer.length : ℚ))) ∧
    (save_averaged_data st1 now1).1.historical_data.hum.getLast?
        = some (round1 (st1.humidity_readings_buffer.sum
            / (st1.humidity_readings_buffer.length : ℚ))) ∧
    (save_averaged_data st1 now1).1.historical_data
        = (save_averaged_data st2 now2).1.historical_data := by
  have ht2 : st2.temp_readings_buffer ≠ [] := by
    intro e
    exact ht (List.Perm.eq_nil (e ▸ hpt))
  have hh2 : st2.humidity_readings_buffer ≠ [] := by
    intro e
    exact hh (List.Perm.eq_nil (e ▸ hph))
  have hcond1 : ¬(st1.temp_readings_buffer = [] ∨ st1.humidity_readings_buffer = []) := by
    rintro (e | e)
    · exact ht e
    · exact hh e
  have hcond2 : ¬(st2.temp_readings_buffer = [] ∨ st2.humidity_readings_buffer = []) := by
    rintro (e | e)
    · exact ht2 e
    · exact hh2 e
  have h1 : (save_averaged_data st1 now1).1.historical_data
      = appendPoint st1.historical_data
          (strftimeLabel (st1.buffer_start_time.getD 0 + HISTORICAL_INTERVAL / 2))
          (round1 (st1.temp_readings_buffer.sum / (st1.temp_readings_buffer.length : ℚ)))
          (round1 (st1.humidity_readings_buffer.sum
            / (st1.humidity_readings_buffer.length : ℚ))) := by
    simp only [save_averaged_data, if_neg hcond1]
  have h2 : (save_averaged_data st2 now2).1.historical_data
      = appendPoint st2.historical_data
          (strftimeLabel (st2.buffer_start_time.getD 0 + HISTORICAL_INTERVAL / 2))
          (round1 (st2.temp_readings_buffer.sum / (st2.temp_readings_buffer.length : ℚ)))
          (round1 (st2.humidity_readings_buffer.sum
            / (st2.humidity_readings_buffer.length : ℚ))) := by
    simp only [save_averaged_data, if_neg hcond2]
  rw [h1, h2]
  refine ⟨(appendPoint_getLast _ _ _ _).2.1, (appendPoint_getLast _ _ _ _).2.2, ?_⟩
  rw [hstart, hhist, hpt.sum_eq, hpt.length_eq, hph.sum_eq, hph.length_eq]

/-- A concrete buffer state, for the C3 witness. -/
def permState1 : AppState :=
  { initAppState with
      temp_readings_buffer := [25, 26]
      humidity_readings_buffer := [50, 52]
      buffer_start_time := some 0 }

/-- The same buffer state with both buffers read in the opposite order. -/
def permState2 : AppState :=
  { initAppState with
      temp_readings_buffer := [26, 25]
      humidity_readings_buffer := [52, 50]
      buffer_start_time := some 0 }

/-- Witness for C3 at the two concrete permuted buffer states. -/
theorem flush_mean_perm_invariant_witness :
    (permState1.temp_readings_buffer ≠ [] ∧
     permState1.humidity_readings_buffer ≠ [] ∧
     permState1.temp_readings_buffer.Perm permState2.temp_readings_buffer ∧
     permState1.humidity_readings_buffer.Perm permState2.humidity_readings_buffer ∧
     permState1.buffer_start_time = permState2.buffer_start_time ∧
     permState1.historical_data = permState2.historical_data) ∧
    ((save_averaged_data permState1 300).1.historical_data.temp.getLast?
        = some (round1 (permState1.temp_readings_buffer.sum
            / (permState1.temp_readings_buffer.length : ℚ))) ∧
     (save_averaged_data permState1 300).1.historical_data.hum.getLast?
        = some (round1 (permState1.humidity_readings_buffer.sum
            / (permState1.humidity_readings_buffer.length : ℚ))) ∧
     (save_averaged_data permState1 300).1.historical_data
        = (save_averaged_data permState2 301).1.historical_data) :=
  ⟨⟨by with_unfolding_all decide, by with_unfolding_all decide,
    List.Perm.swap 26 25 [], List.Perm.swap 52 50 [], rfl, rfl⟩,
   flush_mean_perm_invariant permState1 permState2 300 301
     (by with_unfolding_all decide) (by with_unfolding_all decide)
     (List.Perm.swap 26 25 []) (List.Perm.swap 52 50 []) rfl rfl⟩

/-- On a successful reading, the sensor loop body replaces the live
temperature, humidity and time, clears the error flag, and drives the
buzzer by the inclusive 38-degree threshold. -/
theorem sensorStep_success_sensor (st : AppState) (now : Int) (s : String) (t h : ℚ) :
    (sensorStep st (some (t, h)) now s).1.sensor_data.temperature = some t ∧
    (sensorStep st (some (t, h)) now s).1.sensor_data.humidity = some h ∧
    (sensorStep st (some (t, h)) now s).1.sensor_data.time = some s ∧
    (sensorStep st (some (t, h)) now s).1.sensor_data.error = false ∧
    (sensorStep st (some (t, h)) now s).1.sensor_data.buzzer
      = (if (38 : ℚ) ≤ t then "ON" else "OFF") ∧
    (sensorStep st (some (t, h)) now s).2 = some (decide ((38 : ℚ) ≤ t)) := by
  simp only [sensorStep]
  split
  case isTrue hge =>
    simp [add_to_buffer_sensor, hge]
  case isFalse hge =>
    simp [add_to_buffer_sensor, hge]

/-- C6: a failed read (`markError`) sets the error flag and leaves the
last-known temperature, humidity and time untouched; a subsequent
successful reading replaces those fields and clears the error flag. -/
theorem markError_frame_then_update (st : AppState) (now1 now2 : Int)
    (s1 s2 : String) (t h : ℚ) :
    ((sensorStep st none now1 s1).1.sensor_data.error = true ∧
     (sensorStep st none now1 s1).1.sensor_data.temperature
       = st.sensor_data.temperature ∧
     (sensorStep st none now1 s1).1.sensor_data.humidity = st.sensor_data.humidity ∧
     (sensorStep st none now1 s1).1.sensor_data.time = st.sensor_data.time ∧
     (sensorStep st none now1 s1).2 = none) ∧
    ((sensorStep (sensorStep st none now1 s1).1 (some (t, h)) now2 s2).1.sensor_data.temperature
       = some t ∧
     (sensorStep (sensorStep st none now1 s1).1 (some (t, h)) now2 s2).1.sensor_data.humidity
       = some h ∧
     (sensorStep (sensorStep st none now1 s1).1 (some (t, h)) now2 s2).1.sensor_data.time
       = some s2 ∧
     (sensorStep (sensorStep st none now1 s1).1 (some (t, h)) now2 s2).1.sensor_data.error
       = false) := by
  have hs := sensorStep_success_sensor (sensorStep st none now1 s1).1 now2 s2 t h
  exact ⟨⟨rfl, rfl, rfl, rfl, rfl⟩, ⟨hs.1, hs.2.1, hs.2.2.1, hs.2.2.2.1⟩⟩

/-- C7: on every successful reading the actuator is commanded ON exactly
when the temperature is at least 38.0; in particular 38.0 turns it ON and
37.9 turns it OFF (the threshold is inclusive). -/
theorem actuator_threshold_inclusive (st : AppState) (now : Int) (s : String) (t h : ℚ) :
    ((sensorStep st (some (t, h)) now s).1.sensor_data.buzzer = "ON" ↔ (38 : ℚ) ≤ t) ∧
    ((sensorStep st (some (t, h)) now s).2 = some true ↔ (38 : ℚ) ≤ t) ∧
    (sensorStep initAppState (some (38, 50)) 0 "x").1.sensor_data.buzzer = "ON" ∧
    (sensorStep initAppState (some (37.9, 50)) 0 "x").1.sensor_data.buzzer = "OFF" := by
  have hs := sensorStep_success_sensor st now s t h
  refine ⟨?_, ?_, ?_, ?_⟩
  · rw [hs.2.2.2.2.1]
    by_cases hge : (38 : ℚ) ≤ t <;> simp [hge]
  · rw [hs.2.2.2.2.2]
    by_cases hge : (38 : ℚ) ≤ t <;> simp [hge]
  · with_unfolding_all decide
  · with_unfolding_all decide
